import Mathlib

/-!
Shallow embedding of the GDPR compliance-audit engine (`server.js`).

The engine drives a headless browser through a page load, captures network
and cookie telemetry, runs heuristic detectors over the DOM and telemetry,
and produces a weighted compliance score plus recommendations.

Conventions of the embedding:
* JavaScript strings are Lean `String`s; all computation is done on the
  underlying `List Char` (`String.data`) with executable helpers, because
  those reduce in the kernel.  `toLowerCase` is modelled as ASCII
  per-character lowering (`Char.toLower`); every pattern in the rule tables
  is ASCII, so this is faithful for the comparisons the code performs.
* JavaScript numbers in score arithmetic are modelled as exact rationals
  (`ℚ`); `Math.round` is `jsRound` (round half towards +∞), `Math.max` /
  `Math.min` are `max` / `min`.
* The browser, the DOM query library (cheerio) and the TLS socket are
  external collaborators; they are modelled as explicit inputs: a `Page`
  value abstracts the loaded DOM, an `Attempt` function abstracts the
  outcome of each navigation attempt, and `ConnOutcome` abstracts a TLS
  handshake result.
* A `try { ... } catch` around a detector is modelled by an explicit
  boolean "throws" flag in the input data together with the exact fallback
  object the catch block builds.
-/

/-- `p` is an initial segment of `l` (executable, over char lists). -/
def beginsWith (p l : List Char) : Bool :=
  match p, l with
  | [], _ => true
  | _ :: _, [] => false
  | a :: ps, b :: ls => a == b && beginsWith ps ls

/-- `pat` occurs as a contiguous substring of the second list.
Models JavaScript `String.prototype.includes`. -/
def isSubstringL (pat : List Char) : List Char → Bool
  | [] => pat.isEmpty
  | c :: rest => beginsWith pat (c :: rest) || isSubstringL pat rest

/-- `hay.includes(pat)` on strings. -/
def strContains (hay pat : String) : Bool := isSubstringL pat.data hay.data

/-- `s.toLowerCase()` modelled as ASCII per-character lowering. -/
def lowerS (s : String) : List Char := s.data.map Char.toLower

/-- `hay.toLowerCase().includes(pat.toLowerCase())`. -/
def containsCI (hay pat : String) : Bool := isSubstringL (lowerS pat) (lowerS hay)

/-- `Math.round` in JavaScript: round half towards positive infinity. -/
def jsRound (x : ℚ) : ℤ := ⌊x + 1/2⌋

/-! ## Rule tables (`GDPR_CHECKS` and `TRACKING_SERVICES` in `server.js`) -/

/-- `GDPR_CHECKS.cookieBanner.selectors`. -/
def cookieBannerSelectors : List String :=
  [ "[id*=\"cookie\"]", "[class*=\"cookie\"]", "[id*=\"consent\"]",
    "[class*=\"consent\"]", "[data-consent]", ".cookie-notice",
    ".cookie-banner", "#cookie-policy", ".gdpr-banner", "[class*=\"gdpr\"]" ]

/-- `GDPR_CHECKS.cookieBanner.keywords`. -/
def cookieBannerKeywords : List String :=
  [ "cookie", "súhlas", "consent", "gdpr", "ochrana údajov", "privacy",
    "cookies policy" ]

/-- `GDPR_CHECKS.privacyPolicy.links`. -/
def privacyPolicyLinks : List String :=
  [ "privacy", "ochrana-udajov", "ochrana-osobnych-udajov", "zasady-ochrany",
    "gdpr", "privacy-policy", "osobne-udaje" ]

/-- `GDPR_CHECKS.cookiePolicy.links`. -/
def cookiePolicyLinks : List String :=
  [ "cookie", "cookies", "cookie-policy", "zasady-cookies", "cookies-policy" ]

/-- `GDPR_CHECKS.contactInfo.selectors`. -/
def contactInfoSelectors : List String :=
  [ "[href^=\"mailto:\"]", "[class*=\"contact\"]", "[id*=\"contact\"]",
    "[class*=\"email\"]", "[id*=\"email\"]" ]

/-- One entry of the `TRACKING_SERVICES` registry. -/
structure TrackingService where
  sid : String
  name : String
  category : String
  patterns : List String
deriving DecidableEq, Repr

/-- The `TRACKING_SERVICES` table, in object-literal (iteration) order. -/
def TRACKING_SERVICES : List TrackingService :=
  [ { sid := "google-analytics", name := "Google Analytics", category := "analytics",
      patterns := ["google-analytics.com", "googletagmanager.com", "gtag", "_ga", "_gid", "_gat"] },
    { sid := "facebook-pixel", name := "Facebook Pixel", category := "marketing",
      patterns := ["facebook.com/tr", "connect.facebook.net", "fbq", "_fbp", "_fbc"] },
    { sid := "google-ads", name := "Google Ads", category := "advertising",
      patterns := ["googleadservices.com", "googlesyndication.com", "_gcl_"] },
    { sid := "hotjar", name := "Hotjar", category := "analytics",
      patterns := ["hotjar.com", "_hjid", "_hjIncludedInSample"] },
    { sid := "youtube", name := "YouTube Embedded", category := "media",
      patterns := ["youtube.com/embed", "ytimg.com", "VISITOR_INFO1_LIVE", "YSC"] } ]

/-! ## Telemetry data -/

/-- A cookie as enumerated by `page.cookies()`. -/
structure Cookie where
  name : String
  domain : String := ""
  secure : Bool := false
  httpOnly : Bool := false
deriving DecidableEq, Repr

/-- A captured outgoing request (`NetworkEvent`). -/
structure NetworkRequest where
  url : String
  rtype : String := ""
deriving DecidableEq, Repr

/-! ## Violation analyzer (`checkPreConsentViolations`) -/

/-- The `essentialPatterns` allow-list inside `checkPreConsentViolations`. -/
def essentialPatterns : List String :=
  [ "session", "csrf", "xsrf", "auth", "login", "security",
    "lang", "language", "timezone", "currency", "theme", "wordpress",
    "wp-", "phpsessid" ]

/-- A cookie is essential when its lowercased name contains one of the
allow-list substrings (`essentialPatterns.some(... includes ...)`). -/
def isEssential (c : Cookie) : Bool :=
  essentialPatterns.any fun pat => isSubstringL (lowerS pat) (lowerS c.name)

/-- One entry pushed onto `trackingRequests`: a (request, service) match. -/
structure TrackingMatch where
  service : String
  category : String
  url : String
  rtype : String
deriving DecidableEq, Repr

/-- Does a request URL match one of the service's patterns
(case-insensitive substring match)? -/
def requestMatches (s : TrackingService) (r : NetworkRequest) : Bool :=
  s.patterns.any fun pat => containsCI r.url pat

/-- The `trackingRequests` list: for each captured request, one entry per
matching service of `TRACKING_SERVICES`, in iteration order. -/
def trackingRequestsOf (reqs : List NetworkRequest) : List TrackingMatch :=
  reqs.flatMap fun r =>
    (TRACKING_SERVICES.filter fun s => requestMatches s r).map fun s =>
      { service := s.name, category := s.category, url := r.url, rtype := r.rtype }

/-- The `trackingServices` list: matches deduplicated by service name,
first occurrence wins (`find` guard before `push`). -/
def trackingServicesOf (reqs : List NetworkRequest) : List (String × String) :=
  (trackingRequestsOf reqs).foldl
    (fun acc m => if acc.any fun s => s.1 == m.service then acc
                  else acc ++ [(m.service, m.category)]) []

/-- A violation record produced by the analyzer; `details` keeps the
identifying field of each detail entry (cookie name / request URL). -/
structure Violation where
  vtype : String
  severity : String
  message : String
  details : List String
deriving DecidableEq, Repr

/-- Result object of `checkPreConsentViolations`. -/
structure PreConsentResult where
  found : Bool
  violations : List Violation
  score : ℚ
  totalCookies : Nat
  trackingServices : List (String × String)
deriving DecidableEq, Repr

/-- `checkPreConsentViolations(cookies, networkRequests, ...)`, success path
(the internal `try` completes). -/
def checkPreConsentViolations (cookies : List Cookie) (reqs : List NetworkRequest) :
    PreConsentResult :=
  let problematic := cookies.filter fun c => !(isEssential c)
  let tracking := trackingRequestsOf reqs
  let cookieViol : List Violation :=
    if 0 < problematic.length then
      [ { vtype := "pre-consent-cookies", severity := "HIGH",
          message := toString problematic.length ++ " cookies nastavených pred súhlasom",
          details := problematic.map (·.name) } ]
    else []
  let trackViol : List Violation :=
    if 0 < tracking.length then
      [ { vtype := "tracking-requests", severity := "HIGH",
          message := toString tracking.length ++ " tracking požiadaviek pred súhlasom",
          details := tracking.map (·.url) } ]
    else []
  let found := decide (0 < problematic.length) || decide (0 < tracking.length)
  let score : ℚ :=
    if found then
      max 0 (100 - ((problematic.length : ℚ) * 15 + (tracking.length : ℚ) * 10))
    else 100
  { found := found, violations := cookieViol ++ trackViol, score := score,
    totalCookies := cookies.length, trackingServices := trackingServicesOf reqs }

/-- The internal `catch` of `checkPreConsentViolations`: whatever partial
result was built, the handler overwrites `result.score = 50` and returns it. -/
def preConsentOnError (partialResult : PreConsentResult) : PreConsentResult :=
  { partialResult with score := 50 }

/-! ## The loaded DOM (cheerio) abstraction -/

/-- Abstraction of the cheerio-loaded document: `selectorMatches sel` gives
the text content of every element matched by the CSS selector `sel` (in
document order); `anchors` gives the `(href, text)` pairs of all `a`
elements; `bodyText` is the text content of `body`. -/
structure Page where
  selectorMatches : String → List String
  anchors : List (String × String)
  bodyText : String

/-! ## Content analyzer: `checkCookieBanner` -/

/-- Result object of `checkCookieBanner`; `elements` records
`(selector, first 100 chars of the lowercased text)` per matched element. -/
structure BannerResult where
  found : Bool
  elements : List (String × List Char)
  score : ℚ
deriving DecidableEq

/-- Inner loop of `checkCookieBanner`: scan the elements matched by one
selector, flagging every one whose lowercased text is longer than 10. -/
def bannerSelectorStep (page : Page) (res : BannerResult) (sel : String) : BannerResult :=
  (page.selectorMatches sel).foldl
    (fun r t =>
      if 10 < (lowerS t).length then
        { r with found := true, elements := r.elements ++ [(sel, (lowerS t).take 100)] }
      else r)
    res

/-- `checkCookieBanner(page, $)`: selector scan, then keyword scan over the
lowercased body text (the source's `break` on first keyword hit is
behaviourally the same as `any`); score is 100 iff found. -/
def checkCookieBanner (page : Page) : BannerResult :=
  let afterSel := cookieBannerSelectors.foldl (bannerSelectorStep page)
    { found := false, elements := [], score := 0 }
  let kwFound := cookieBannerKeywords.any fun k => containsCI page.bodyText k
  let found := afterSel.found || kwFound
  { afterSel with found := found, score := if found then 100 else 0 }

/-! ## Content analyzer: `checkPrivacyPolicy`, `checkCookiePolicy`,
`checkContactInfo` -/

/-- Result object of the two link-scanning policies. -/
structure PolicyResult where
  found : Bool
  links : List (String × String)
  score : ℚ
deriving DecidableEq

/-- Does one anchor `(href, text)` match the keyword list: the lowercased
href or the lowercased text contains the entry as a substring? -/
def anchorMatchesLinks (links : List String) (a : String × String) : Bool :=
  links.any fun l => isSubstringL l.data (lowerS a.1) || isSubstringL l.data (lowerS a.2)

/-- `checkPrivacyPolicy(page, $)`: every anchor matching one of the
configured link substrings is recorded; score 100 iff any matched. -/
def checkPrivacyPolicy (page : Page) : PolicyResult :=
  let links := page.anchors.filter (anchorMatchesLinks privacyPolicyLinks)
  { found := !links.isEmpty, links := links,
    score := if !links.isEmpty then 100 else 0 }

/-- `checkCookiePolicy(page, $)`: same scan with the cookie-policy link
table; score 80 iff any matched. -/
def checkCookiePolicy (page : Page) : PolicyResult :=
  let links := page.anchors.filter (anchorMatchesLinks cookiePolicyLinks)
  { found := !links.isEmpty, links := links,
    score := if !links.isEmpty then 80 else 0 }

/-- Result object of `checkContactInfo`. -/
structure ContactResult where
  found : Bool
  contacts : List (String × String)
  score : ℚ
deriving DecidableEq

/-- `checkContactInfo(page, $)`: `mailto:` anchors, `tel:` anchors, or any
configured contact selector matching at least one element; score 80 iff
found. -/
def checkContactInfo (page : Page) : ContactResult :=
  let emails := page.anchors.filter fun a => beginsWith "mailto:".data a.1.data
  let phones := page.anchors.filter fun a => beginsWith "tel:".data a.1.data
  let selFound := contactInfoSelectors.any fun sel =>
    !(page.selectorMatches sel).isEmpty
  let found := !emails.isEmpty || !phones.isEmpty || selFound
  { found := found,
    contacts := emails.map (fun a => ("email", a.1)) ++ phones.map (fun a => ("phone", a.1)),
    score := if found then 80 else 0 }

/-! ## SSL inspector: `checkSSL` -/

/-- Outcome of the raw TLS handshake to port 443: a socket error, or a peer
certificate whose `valid_to` date (as a timestamp, `none` when the
certificate or its `valid_to` field is absent) was retrieved. -/
inductive ConnOutcome where
  | connError (msg : String)
  | cert (validTo : Option ℤ)
deriving DecidableEq, Repr

/-- Result object of `checkSSL`. -/
structure SSLResult where
  valid : Bool
  details : String
deriving DecidableEq, Repr

/-- `checkSSL(url)`: `protocol` is the scheme of the already-parsed URL
(`"https:"`, `"http:"`, ...), `now` the current time, `conn` the TLS
handshake outcome.  Non-HTTPS URLs return before any connection is made;
socket errors and missing certificates resolve (never reject) with
`valid = false`; date formatting (`toLocaleDateString`) is abstracted to
`toString` of the expiry timestamp. -/
def checkSSL (protocol : String) (now : ℤ) (conn : ConnOutcome) : SSLResult :=
  if protocol ≠ "https:" then
    { valid := false, details := "Stránka nepoužíva HTTPS protokol." }
  else
    match conn with
    | ConnOutcome.connError m =>
        { valid := false, details := "Chyba pri kontrole SSL: " ++ m }
    | ConnOutcome.cert none =>
        { valid := false, details := "Certifikát nebol nájdený alebo je neplatný." }
    | ConnOutcome.cert (some validTo) =>
        if now < validTo then
          { valid := true, details := "Platný do " ++ toString validTo }
        else
          { valid := false, details := "Certifikát expiroval " ++ toString validTo }

/-! ## Cookie count check: `checkCookies` -/

/-- Result object of `checkCookies`. -/
structure CookiesResult where
  count : Nat
  cookieList : List Cookie
  score : ℚ
deriving DecidableEq

/-- `checkCookies(page)`, success path: tiered score from the number of
cookies `page.cookies()` enumerates, then `Math.min(100, Math.round(...))`. -/
def checkCookies (cookies : List Cookie) : CookiesResult :=
  let n := cookies.length
  let tier : ℚ := if n = 0 then 100 else if n ≤ 3 then 80 else if n ≤ 10 then 60 else 30
  { count := n, cookieList := cookies,
    score := ((min 100 (jsRound tier) : ℤ) : ℚ) }

/-- The `catch` of `checkCookies`: the initial result object with
`score` overwritten to 50. -/
def checkCookiesOnError : CookiesResult :=
  { count := 0, cookieList := [], score := 50 }

/-! ## Scorer: `calculateScore` -/

/-- Payload stored under one key of the `results.checks` map.  `degraded`
is the object a `catch` block in `checkUrl` builds for a failed detector
(`{found:false, score:<fallback>, error:<message>}`). -/
inductive CheckPayload where
  | banner (r : BannerResult)
  | policy (r : PolicyResult)
  | contact (r : ContactResult)
  | sslRes (r : SSLResult)
  | cookiesRes (r : CookiesResult)
  | preRes (r : PreConsentResult)
  | degraded (found : Bool) (score : ℚ) (err : String)
deriving DecidableEq

/-- The `score` property of a checks-map payload, when it is a number
(the SSL result has no `score` property). -/
def CheckPayload.scoreOf : CheckPayload → Option ℚ
  | CheckPayload.banner r => some r.score
  | CheckPayload.policy r => some r.score
  | CheckPayload.contact r => some r.score
  | CheckPayload.sslRes _ => none
  | CheckPayload.cookiesRes r => some r.score
  | CheckPayload.preRes r => some r.score
  | CheckPayload.degraded _ s _ => some s

/-- The `found` property of a checks-map payload, when present. -/
def CheckPayload.foundOf : CheckPayload → Option Bool
  | CheckPayload.banner r => some r.found
  | CheckPayload.policy r => some r.found
  | CheckPayload.contact r => some r.found
  | CheckPayload.sslRes _ => none
  | CheckPayload.cookiesRes _ => none
  | CheckPayload.preRes r => some r.found
  | CheckPayload.degraded f _ _ => some f

/-- `checks[key].score` when `checks[key]` exists and its score is a
number, else `none` (`typeof checks[key].score === 'number'`). -/
def getScore (checks : List (String × CheckPayload)) (key : String) : Option ℚ :=
  (checks.lookup key).bind CheckPayload.scoreOf

/-- The `weights` table of `calculateScore`, in iteration order. -/
def scoreWeights : List (String × ℚ) :=
  [ ("cookieBanner", 2/10), ("privacyPolicy", 2/10), ("cookiePolicy", 15/100),
    ("contactInfo", 1/10), ("cookies", 1/10), ("preConsentViolations", 25/100) ]

/-- One iteration of the `calculateScore` loop: add
`checks[key].score * weight` when the key holds a numeric score. -/
def addWeighted (checks : List (String × CheckPayload)) (total : ℚ)
    (kw : String × ℚ) : ℚ :=
  match getScore checks kw.1 with
  | some s => total + s * kw.2
  | none => total

/-- `calculateScore(checks)`: fold the weight table, adding
`checks[key].score * weight` whenever the key holds a numeric score, then
`Math.round` the total. -/
def calculateScore (checks : List (String × CheckPayload)) : ℤ :=
  jsRound (scoreWeights.foldl (addWeighted checks) 0)

/-! ## Recommendation engine: `generateRecommendations` -/

/-- One recommendation entry. -/
structure Recommendation where
  priority : String
  message : String
deriving DecidableEq, Repr

/-- Recommendations generated from one pre-consent violation record. -/
def recsForViolation (v : Violation) : List Recommendation :=
  (if v.vtype = "pre-consent-cookies" then
    [ { priority := "CRITICAL",
        message := "KRITICKÉ: " ++ toString v.details.length ++
          " cookies sa nastavuje pred súhlasom používateľa. Toto je závažné porušenie GDPR!" } ]
   else []) ++
  (if v.vtype = "tracking-requests" then
    [ { priority := "CRITICAL",
        message := "KRITICKÉ: Tracking služby sa spúšťajú automaticky bez súhlasu!" } ]
   else [])

/-- `generateRecommendations(checks)`: CRITICAL entries per pre-consent
violation first, then HIGH entries for a missing banner / privacy policy,
MEDIUM entries for a missing cookie policy / contact info and for more than
10 cookies.  The degraded fallback for `preConsentViolations` always has
`found = false`, so its (absent) violations list is never iterated. -/
def generateRecommendations (checks : List (String × CheckPayload)) : List Recommendation :=
  let preViolations : List Violation :=
    match checks.lookup "preConsentViolations" with
    | some (CheckPayload.preRes r) => if r.found then r.violations else []
    | _ => []
  let bannerFound := ((checks.lookup "cookieBanner").bind CheckPayload.foundOf).getD false
  let privacyFound := ((checks.lookup "privacyPolicy").bind CheckPayload.foundOf).getD false
  let cookiePolicyFound := ((checks.lookup "cookiePolicy").bind CheckPayload.foundOf).getD false
  let contactFound := ((checks.lookup "contactInfo").bind CheckPayload.foundOf).getD false
  let cookieCount : Nat :=
    match checks.lookup "cookies" with
    | some (CheckPayload.cookiesRes r) => r.count
    | _ => 0
  preViolations.flatMap recsForViolation ++
  (if !bannerFound then
    [ { priority := "HIGH",
        message := "Pridajte cookie banner s možnosťou súhlasu/odmietnutia cookies" } ]
   else []) ++
  (if !privacyFound then
    [ { priority := "HIGH",
        message := "Vytvorte a zverejnite zásady ochrany osobných údajov" } ]
   else []) ++
  (if !cookiePolicyFound then
    [ { priority := "MEDIUM", message := "Pridajte zásady používania cookies" } ]
   else []) ++
  (if !contactFound then
    [ { priority := "MEDIUM", message := "Zverejnite kontaktné údaje správcu údajov" } ]
   else []) ++
  (if 10 < cookieCount then
    [ { priority := "MEDIUM",
        message := "Zvážte zníženie počtu cookies na minimum potrebné" } ]
   else [])

/-! ## Audit orchestrator: `checkUrl` -/

/-- Everything one *successful* navigation attempt exposes to the checks:
the loaded DOM, the cookies enumerated right after load
(`preConsentCookies`) and later inside `checkCookies` (`laterCookies`),
the captured requests, the TLS handshake outcome, and one "throws" flag
per detector `try` block in `checkUrl` (with the error message a throwing
detector would carry). -/
structure PageData where
  page : Page
  preConsentCookies : List Cookie := []
  laterCookies : List Cookie := []
  networkRequests : List NetworkRequest := []
  sslConn : ConnOutcome := ConnOutcome.cert none
  throwBanner : Bool := false
  throwPrivacy : Bool := false
  throwCookiePolicy : Bool := false
  throwContact : Bool := false
  throwSSL : Bool := false
  throwCookies : Bool := false
  throwPreConsent : Bool := false
  errMsg : String := "error"

/-- Outcome of one navigation attempt: a thrown error (URL validation,
browser launch, navigation, no response, or HTTP status ≥ 400 — with
`pageOpened` recording whether `browser.newPage()` had already run), or a
loaded page. -/
inductive Attempt where
  | fail (msg : String) (pageOpened : Bool)
  | succeed (d : PageData)

/-- `this.maxRetries` (constructor of `GDPRChecker`). -/
def maxRetries : Nat := 2

/-- The seven `results.checks.<key> = ...` assignments of `checkUrl`, in
program order; each detector's `catch` block replaces its result with the
fallback object built there. -/
def runChecks (protocol : String) (now : ℤ) (d : PageData) :
    List (String × CheckPayload) :=
  [ ("cookieBanner",
      if d.throwBanner then CheckPayload.degraded false 0 d.errMsg
      else CheckPayload.banner (checkCookieBanner d.page)),
    ("privacyPolicy",
      if d.throwPrivacy then CheckPayload.degraded false 0 d.errMsg
      else CheckPayload.policy (checkPrivacyPolicy d.page)),
    ("cookiePolicy",
      if d.throwCookiePolicy then CheckPayload.degraded false 0 d.errMsg
      else CheckPayload.policy (checkCookiePolicy d.page)),
    ("contactInfo",
      if d.throwContact then CheckPayload.degraded false 0 d.errMsg
      else CheckPayload.contact (checkContactInfo d.page)),
    ("ssl",
      if d.throwSSL then CheckPayload.sslRes { valid := false, details := d.errMsg }
      else CheckPayload.sslRes (checkSSL protocol now d.sslConn)),
    ("cookies",
      if d.throwCookies then CheckPayload.cookiesRes checkCookiesOnError
      else CheckPayload.cookiesRes (checkCookies d.laterCookies)),
    ("preConsentViolations",
      if d.throwPreConsent then CheckPayload.degraded false 50 d.errMsg
      else CheckPayload.preRes
        (checkPreConsentViolations d.preConsentCookies d.networkRequests)) ]

/-- The externally visible audit report (`results` object of `checkUrl`). -/
structure AuditReport where
  url : String
  checks : List (String × CheckPayload)
  score : ℤ
  recommendations : List Recommendation
  error : Option String := none
  thirdPartyServices : Option (List (String × String)) := none
  debugRetryCount : Nat
  debugFailed : Bool := false
deriving DecidableEq

/-- Outcome of a whole `checkUrl` invocation: the report, the number of
`browser.newPage()` calls made, the number of `page.close()` calls made
(the source contains none — the cleanup blocks at the end of `checkUrl`
are self-cancelling conditionals that never close anything), and the
backoff delays awaited between attempts, in order. -/
structure AuditOutcome where
  report : AuditReport
  pagesOpened : Nat
  pagesClosed : Nat
  delays : List Nat
deriving DecidableEq

/-- The report built on the success path of `checkUrl`. -/
def successReport (url protocol : String) (now : ℤ) (d : PageData)
    (retryCount : Nat) : AuditReport :=
  let checks := runChecks protocol now d
  { url := url, checks := checks,
    score := calculateScore checks,
    recommendations := generateRecommendations checks,
    thirdPartyServices :=
      if d.throwPreConsent then none
      else some (checkPreConsentViolations d.preConsentCookies d.networkRequests).trackingServices,
    debugRetryCount := retryCount }

/-- The error report returned when retries are exhausted (the final
`return` of the `catch` block in `checkUrl`). -/
def errorReport (url msg : String) (retryCount : Nat) : AuditReport :=
  { url := url, checks := [], score := 0,
    recommendations :=
      [ { priority := "ERROR", message := "Chyba pri kontrole: " ++ msg } ],
    error := some msg,
    debugRetryCount := retryCount, debugFailed := true }

/-- The retry recursion of `checkUrl`, with the bounded self-recursion
(`if (retryCount < this.maxRetries) return this.checkUrl(url, retryCount+1)`)
expressed structurally through `fuel = maxRetries - retryCount`; before a
retry the controller awaits `delay(3000 * (retryCount + 1))`. -/
def checkUrlAux (url protocol : String) (now : ℤ) (attempts : Nat → Attempt) :
    Nat → Nat → AuditOutcome
  | fuel, retryCount =>
    match attempts retryCount with
    | Attempt.succeed d =>
        { report := successReport url protocol now d retryCount,
          pagesOpened := 1, pagesClosed := 0, delays := [] }
    | Attempt.fail msg pg =>
        match fuel with
        | 0 =>
            { report := errorReport url msg retryCount,
              pagesOpened := if pg then 1 else 0, pagesClosed := 0, delays := [] }
        | f + 1 =>
            let rest := checkUrlAux url protocol now attempts f (retryCount + 1)
            { report := rest.report,
              pagesOpened := (if pg then 1 else 0) + rest.pagesOpened,
              pagesClosed := rest.pagesClosed,
              delays := 3000 * (retryCount + 1) :: rest.delays }

/-- `checkUrl(url)`: the audit entry point, starting at `retryCount = 0`
with `maxRetries` retries left. -/
def checkUrl (url protocol : String) (now : ℤ) (attempts : Nat → Attempt) :
    AuditOutcome :=
  checkUrlAux url protocol now attempts maxRetries 0

/-! ## Claim-side definitions and concrete fixtures -/

/-- `s.trim()` on char lists: strip leading and trailing whitespace. -/
def trimL (l : List Char) : List Char :=
  ((l.dropWhile Char.isWhitespace).reverse.dropWhile Char.isWhitespace).reverse

/-- The banner-detector condition as the specification words it: some
configured selector matches an element whose *trimmed* text exceeds 10
characters, or some configured keyword appears case-insensitively in the
body text.  Stated for comparison with `checkCookieBanner`, which does not
trim. -/
def bannerFoundClaim (page : Page) : Bool :=
  (cookieBannerSelectors.any fun sel =>
    (page.selectorMatches sel).any fun t => 10 < (trimL (lowerS t)).length) ||
  (cookieBannerKeywords.any fun k => containsCI page.bodyText k)

/-- A page whose only notable element matches the first banner selector and
has text of 11 spaces; the body text contains no banner keyword. -/
def pageC6 : Page :=
  { selectorMatches := fun s => if s = "[id*=\"cookie\"]" then ["           "] else [],
    anchors := [], bodyText := "hello" }

/-- A page with no matched elements, no anchors and empty body text. -/
def emptyPage : Page :=
  { selectorMatches := fun _ => [], anchors := [], bodyText := "" }

/-- A minimal successful navigation: empty page, no telemetry, no
detector failures. -/
def pd0 : PageData := { page := emptyPage }

/-- The checks map of the specification's worked scoring example. -/
def exampleChecks : List (String × CheckPayload) :=
  [ ("cookieBanner", CheckPayload.degraded true 100 ""),
    ("privacyPolicy", CheckPayload.degraded false 0 ""),
    ("cookiePolicy", CheckPayload.degraded true 80 ""),
    ("contactInfo", CheckPayload.degraded true 80 ""),
    ("cookies", CheckPayload.degraded true 100 ""),
    ("preConsentViolations", CheckPayload.degraded false 100 "") ]

/-! ## Helper lemmas -/

theorem jsRound_bounds {x : ℚ} (h0 : 0 ≤ x) (h1 : x ≤ 100) :
    0 ≤ jsRound x ∧ jsRound x ≤ 100 := by
  unfold jsRound
  constructor
  · exact Int.le_floor.mpr (by push_cast; linarith)
  · have : ⌊x + 1/2⌋ < 101 := Int.floor_lt.mpr (by push_cast; linarith)
    omega

theorem getD_score_bounds (checks : List (String × CheckPayload)) (k : String)
    (h : ∀ q, getScore checks k = some q → 0 ≤ q ∧ q ≤ 100) :
    0 ≤ (getScore checks k).getD 0 ∧ (getScore checks k).getD 0 ≤ 100 := by
  cases hk : getScore checks k with
  | none => simp
  | some q => simpa using h q hk

theorem addWeighted_eq (checks : List (String × CheckPayload)) (total : ℚ)
    (kw : String × ℚ) :
    addWeighted checks total kw = total + (getScore checks kw.1).getD 0 * kw.2 := by
  unfold addWeighted
  cases getScore checks kw.1 <;> simp

theorem calculateScore_eq (checks : List (String × CheckPayload)) :
    calculateScore checks =
      jsRound ((getScore checks "cookieBanner").getD 0 * (2/10)
        + (getScore checks "privacyPolicy").getD 0 * (2/10)
        + (getScore checks "cookiePolicy").getD 0 * (15/100)
        + (getScore checks "contactInfo").getD 0 * (1/10)
        + (getScore checks "cookies").getD 0 * (1/10)
        + (getScore checks "preConsentViolations").getD 0 * (25/100)) := by
  unfold calculateScore
  simp only [scoreWeights, List.foldl_cons, List.foldl_nil, addWeighted_eq]
  congr 1
  ring

/-- C3: `calculateScore` is the weighted sum of the six dimension scores
(cookieBanner 0.20, privacyPolicy 0.20, cookiePolicy 0.15, contactInfo
0.10, cookies 0.10, preConsentViolations 0.25), a missing or non-numeric
dimension score contributing zero, rounded to the nearest integer; when
every present dimension score lies in [0,100] the result is an integer in
[0,100]; and the specification's worked example evaluates to exactly 75. -/
theorem C3_weighted_score (checks : List (String × CheckPayload))
    (h : ∀ k ∈ scoreWeights.map Prod.fst, ∀ q,
      getScore checks k = some q → 0 ≤ q ∧ q ≤ 100) :
    calculateScore checks =
      jsRound ((getScore checks "cookieBanner").getD 0 * (2/10)
        + (getScore checks "privacyPolicy").getD 0 * (2/10)
        + (getScore checks "cookiePolicy").getD 0 * (15/100)
        + (getScore checks "contactInfo").getD 0 * (1/10)
        + (getScore checks "cookies").getD 0 * (1/10)
        + (getScore checks "preConsentViolations").getD 0 * (25/100)) ∧
    0 ≤ calculateScore checks ∧ calculateScore checks ≤ 100 ∧
    calculateScore exampleChecks = 75 := by
  have b1 := getD_score_bounds checks "cookieBanner" (h _ (by simp [scoreWeights]))
  have b2 := getD_score_bounds checks "privacyPolicy" (h _ (by simp [scoreWeights]))
  have b3 := getD_score_bounds checks "cookiePolicy" (h _ (by simp [scoreWeights]))
  have b4 := getD_score_bounds checks "contactInfo" (h _ (by simp [scoreWeights]))
  have b5 := getD_score_bounds checks "cookies" (h _ (by simp [scoreWeights]))
  have b6 := getD_score_bounds checks "preConsentViolations" (h _ (by simp [scoreWeights]))
  have hb := jsRound_bounds
    (x := (getScore checks "cookieBanner").getD 0 * (2/10)
      + (getScore checks "privacyPolicy").getD 0 * (2/10)
      + (getScore checks "cookiePolicy").getD 0 * (15/100)
      + (getScore checks "contactInfo").getD 0 * (1/10)
      + (getScore checks "cookies").getD 0 * (1/10)
      + (getScore checks "preConsentViolations").getD 0 * (25/100))
    (by linarith [b1.1, b2.1, b3.1, b4.1, b5.1, b6.1])
    (by linarith [b1.2, b2.2, b3.2, b4.2, b5.2, b6.2])
  refine ⟨calculateScore_eq checks, ?_, ?_, ?_⟩
  · rw [calculateScore_eq checks]; exact hb.1
  · rw [calculateScore_eq checks]; exact hb.2
  · have h1 : getScore exampleChecks "cookieBanner" = some 100 := rfl
    have h2 : getScore exampleChecks "privacyPolicy" = some 0 := rfl
    have h3 : getScore exampleChecks "cookiePolicy" = some 80 := rfl
    have h4 : getScore exampleChecks "contactInfo" = some 80 := rfl
    have h5 : getScore exampleChecks "cookies" = some 100 := rfl
    have h6 : getScore exampleChecks "preConsentViolations" = some 100 := rfl
    rw [calculateScore_eq exampleChecks, h1, h2, h3, h4, h5, h6]
    norm_num [jsRound, Int.floor_eq_iff]

/-- Witness for C3 at the specification's worked example. -/
theorem C3_weighted_score_witness :
    0 ≤ calculateScore exampleChecks ∧ calculateScore exampleChecks ≤ 100 ∧
    calculateScore exampleChecks = 75 := by
  have h : ∀ k ∈ scoreWeights.map Prod.fst, ∀ q,
      getScore exampleChecks k = some q → 0 ≤ q ∧ q ≤ 100 := by
    intro k hk
    fin_cases hk <;> intro q hq <;>
      simp only [show getScore exampleChecks "cookieBanner" = some 100 from rfl,
        show getScore exampleChecks "privacyPolicy" = some 0 from rfl,
        show getScore exampleChecks "cookiePolicy" = some 80 from rfl,
        show getScore exampleChecks "contactInfo" = some 80 from rfl,
        show getScore exampleChecks "cookies" = some 100 from rfl,
        show getScore exampleChecks "preConsentViolations" = some 100 from rfl,
        Option.some.injEq] at hq <;> subst hq <;> norm_num
  exact (C3_weighted_score exampleChecks h).2

theorem preConsent_score_eq (cookies : List Cookie) (reqs : List NetworkRequest) :
    (checkPreConsentViolations cookies reqs).score =
      max 0 (100 - 15 * ((cookies.filter fun c => !(isEssential c)).length : ℚ)
               - 10 * ((trackingRequestsOf reqs).length : ℚ)) := by
  simp only [checkPreConsentViolations]
  by_cases hc : 0 < (cookies.filter fun c => !(isEssential c)).length
  · rw [if_pos (by simp [hc])]
    congr 1
    ring
  · by_cases ht : 0 < (trackingRequestsOf reqs).length
    · rw [if_pos (by simp [ht])]
      congr 1
      ring
    · rw [if_neg (by simp [hc, ht])]
      have hc0 : (cookies.filter fun c => !(isEssential c)).length = 0 := by omega
      have ht0 : (trackingRequestsOf reqs).length = 0 := by omega
      rw [hc0, ht0]
      norm_num

theorem preConsent_found_iff (cookies : List Cookie) (reqs : List NetworkRequest) :
    (checkPreConsentViolations cookies reqs).found =
      (decide (0 < (cookies.filter fun c => !(isEssential c)).length) ||
       decide (0 < (trackingRequestsOf reqs).length)) := by
  simp only [checkPreConsentViolations]

/-- C4: the pre-consent dimension score is 100 minus 15 per non-essential
cookie minus 10 per detected tracking request, floored at 0; with no
non-essential cookie and no tracking request `found = false` and the score
stays 100; 2 non-essential cookies and 1 tracking request give exactly 60;
and when the sub-check throws, the catch overwrites the score with the
neutral fallback 50. -/
theorem C4_preconsent_scoring (cookies : List Cookie) (reqs : List NetworkRequest)
    (partialResult : PreConsentResult)
    (hc : (cookies.filter fun c => !(isEssential c)).length = 0)
    (ht : (trackingRequestsOf reqs).length = 0) :
    (∀ (cs : List Cookie) (rs : List NetworkRequest),
      (checkPreConsentViolations cs rs).score =
        max 0 (100 - 15 * ((cs.filter fun c => !(isEssential c)).length : ℚ)
                 - 10 * ((trackingRequestsOf rs).length : ℚ))) ∧
    (checkPreConsentViolations cookies reqs).found = false ∧
    (checkPreConsentViolations cookies reqs).score = 100 ∧
    (checkPreConsentViolations [{ name := "_ga" }, { name := "_fbp" }]
      [{ url := "https://www.google-analytics.com/collect" }]).score = 60 ∧
    (preConsentOnError partialResult).score = 50 := by
  refine ⟨preConsent_score_eq, ?_, ?_, ?_, rfl⟩
  · rw [preConsent_found_iff, hc, ht]
    simp
  · rw [preConsent_score_eq, hc, ht]
    norm_num
  · have hc2 : (List.filter (fun c => !(isEssential c))
        ([{ name := "_ga" }, { name := "_fbp" }] : List Cookie)).length = 2 := by decide
    have ht1 : (trackingRequestsOf
        [{ url := "https://www.google-analytics.com/collect" }]).length = 1 := by decide
    rw [preConsent_score_eq, hc2, ht1]
    norm_num

/-- Witness for C4: no cookies and no requests satisfy the zero-violation
hypotheses, and the degraded fallback carries score 50. -/
theorem C4_preconsent_scoring_witness :
    (checkPreConsentViolations ([] : List Cookie) ([] : List NetworkRequest)).found = false ∧
    (checkPreConsentViolations ([] : List Cookie) ([] : List NetworkRequest)).score = 100 ∧
    (checkPreConsentViolations [{ name := "_ga" }, { name := "_fbp" }]
      [{ url := "https://www.google-analytics.com/collect" }]).score = 60 ∧
    (preConsentOnError ⟨false, [], 0, 0, []⟩).score = 50 := by
  have h := C4_preconsent_scoring [] [] ⟨false, [], 0, 0, []⟩ (by decide) (by decide)
  exact ⟨h.2.1, h.2.2.1, h.2.2.2.1, h.2.2.2.2⟩

/-- C5: a cookie is classified essential exactly when its lowercased name
contains one of the fixed allow-list substrings; `session_id` is essential,
`_ga` is not, and a captured `_ga` cookie yields a `pre-consent-cookies`
violation of severity HIGH listing it. -/
theorem C5_essential_classification (cookies : List Cookie)
    (reqs : List NetworkRequest) (hga : ({ name := "_ga" } : Cookie) ∈ cookies) :
    (∀ c : Cookie, isEssential c = true ↔
      ∃ pat ∈ essentialPatterns, isSubstringL (lowerS pat) (lowerS c.name) = true) ∧
    isEssential { name := "session_id" } = true ∧
    isEssential { name := "_ga" } = false ∧
    ∃ v ∈ (checkPreConsentViolations cookies reqs).violations,
      v.vtype = "pre-consent-cookies" ∧ v.severity = "HIGH" ∧ "_ga" ∈ v.details := by
  refine ⟨?_, by decide, by decide, ?_⟩
  · intro c
    simp [isEssential, List.any_eq_true]
  · have hmem : ({ name := "_ga" } : Cookie) ∈
        cookies.filter fun c => !(isEssential c) := by
      rw [List.mem_filter]
      exact ⟨hga, by decide⟩
    have hlen : 0 < (cookies.filter fun c => !(isEssential c)).length :=
      List.length_pos.mpr (fun he => by simp [he] at hmem)
    simp only [checkPreConsentViolations]
    rw [if_pos hlen]
    refine ⟨_, List.mem_append_left _ (List.mem_singleton.mpr rfl), rfl, rfl, ?_⟩
    exact List.mem_map.mpr ⟨_, hmem, rfl⟩

/-- Witness for C5 with the captured cookie set `[_ga]`. -/
theorem C5_essential_classification_witness :
    isEssential { name := "session_id" } = true ∧
    isEssential { name := "_ga" } = false ∧
    ∃ v ∈ (checkPreConsentViolations [{ name := "_ga" }] []).violations,
      v.vtype = "pre-consent-cookies" ∧ v.severity = "HIGH" ∧ "_ga" ∈ v.details := by
  have h := C5_essential_classification [{ name := "_ga" }] [] (by simp)
  exact ⟨h.2.1, h.2.2.1, h.2.2.2⟩

theorem bannerSelectorStep_found (page : Page) (sel : String) (r : BannerResult) :
    (bannerSelectorStep page r sel).found =
      (r.found || (page.selectorMatches sel).any fun t => 10 < (lowerS t).length) := by
  unfold bannerSelectorStep
  generalize page.selectorMatches sel = l
  induction l generalizing r with
  | nil => simp
  | cons t ts ih =>
      simp only [List.foldl_cons, List.any_cons]
      by_cases h : 10 < (lowerS t).length
      · rw [if_pos h, ih]
        simp [h]
      · rw [if_neg h, ih]
        simp [h]

theorem bannerSelFold_found (page : Page) (sels : List String) (r : BannerResult) :
    ((sels.foldl (bannerSelectorStep page) r).found) =
      (r.found || sels.any fun sel =>
        (page.selectorMatches sel).any fun t => 10 < (lowerS t).length) := by
  induction sels generalizing r with
  | nil => simp
  | cons s ss ih =>
      simp only [List.foldl_cons, List.any_cons]
      rw [ih, bannerSelectorStep_found]
      simp [Bool.or_assoc]

/-- C6 counterexample: on a page whose only selector hit is an element of
11 whitespace characters (trimmed text empty) and whose body holds no
keyword, the code reports `found = true` while the claim's trimmed-text
condition is false. -/
theorem C6_banner_counterexample :
    (checkCookieBanner pageC6).found = true ∧ bannerFoundClaim pageC6 = false := by
  constructor <;> decide

/-- C6 amended: `found` is true exactly when some configured selector
matches an element whose (lowercased, *untrimmed*) text exceeds 10
characters or some configured keyword appears case-insensitively in the
body text, and the score is binary: 100 when found, 0 otherwise. -/
theorem C6_banner_amended (page : Page) :
    (checkCookieBanner page).found =
      ((cookieBannerSelectors.any fun sel =>
          (page.selectorMatches sel).any fun t => 10 < (lowerS t).length) ||
        (cookieBannerKeywords.any fun k => containsCI page.bodyText k)) ∧
    (checkCookieBanner page).score =
      (if (checkCookieBanner page).found = true then 100 else 0) := by
  constructor
  · simp only [checkCookieBanner]
    rw [bannerSelFold_found]
    rfl
  · simp only [checkCookieBanner]

/-- C8: for a non-HTTPS URL `checkSSL` returns `valid = false` with the
protocol-explanation detail and its result does not depend on any
connection outcome (no connection is consulted); and for HTTPS the
connection-error case resolves to `valid = false` carrying the error
message — the function is total, so it never rejects. -/
theorem C8_ssl_never_rejects (protocol : String) (now : ℤ)
    (conn conn2 : ConnOutcome) (m : String) (hp : protocol ≠ "https:") :
    checkSSL protocol now conn =
      { valid := false, details := "Stránka nepoužíva HTTPS protokol." } ∧
    checkSSL protocol now conn = checkSSL protocol now conn2 ∧
    (checkSSL "https:" now (ConnOutcome.connError m)).valid = false ∧
    (checkSSL "https:" now (ConnOutcome.connError m)).details =
      "Chyba pri kontrole SSL: " ++ m := by
  refine ⟨?_, ?_, ?_, ?_⟩
  · simp [checkSSL, hp]
  · simp [checkSSL, hp]
  · simp [checkSSL]
  · simp [checkSSL]

/-- Witness for C8 at the plain-HTTP protocol. -/
theorem C8_ssl_never_rejects_witness :
    checkSSL "http:" 0 (ConnOutcome.cert (some 10)) =
      { valid := false, details := "Stránka nepoužíva HTTPS protokol." } ∧
    checkSSL "http:" 0 (ConnOutcome.cert (some 10)) =
      checkSSL "http:" 0 (ConnOutcome.connError "refused") ∧
    (checkSSL "https:" 0 (ConnOutcome.connError "refused")).valid = false ∧
    (checkSSL "https:" 0 (ConnOutcome.connError "refused")).details =
      "Chyba pri kontrole SSL: " ++ "refused" :=
  C8_ssl_never_rejects "http:" 0 (ConnOutcome.cert (some 10))
    (ConnOutcome.connError "refused") "refused" (by decide)

/-- C10: `checkCookies` scores purely by cookie count in fixed tiers —
100 for zero cookies, 80 for 1–3, 60 for 4–10, 30 for more than 10 — and
when cookie enumeration throws, the fallback result carries score 50. -/
theorem C10_cookie_count_tiers (cs : List Cookie) :
    (cs.length = 0 → (checkCookies cs).score = 100) ∧
    (1 ≤ cs.length → cs.length ≤ 3 → (checkCookies cs).score = 80) ∧
    (4 ≤ cs.length → cs.length ≤ 10 → (checkCookies cs).score = 60) ∧
    (10 < cs.length → (checkCookies cs).score = 30) ∧
    checkCookiesOnError.score = 50 := by
  refine ⟨?_, ?_, ?_, ?_, rfl⟩
  · intro h
    simp only [checkCookies, h]
    norm_num [jsRound, Int.floor_eq_iff]
  · intro h1 h3
    simp only [checkCookies]
    rw [if_neg (by omega), if_pos h3]
    norm_num [jsRound, Int.floor_eq_iff]
  · intro h4 h10
    simp only [checkCookies]
    rw [if_neg (by omega), if_neg (by omega), if_pos h10]
    norm_num [jsRound, Int.floor_eq_iff]
  · intro h
    simp only [checkCookies]
    rw [if_neg (by omega), if_neg (by omega), if_neg (by omega)]
    norm_num [jsRound, Int.floor_eq_iff]

/-- Witness for C10 across the four tiers. -/
theorem C10_cookie_count_tiers_witness :
    (checkCookies ([] : List Cookie)).score = 100 ∧
    (checkCookies [{ name := "a" }, { name := "b" }]).score = 80 ∧
    (checkCookies [{ name := "a" }, { name := "b" }, { name := "c" },
      { name := "d" }, { name := "e" }]).score = 60 ∧
    (checkCookies (List.replicate 11 { name := "a" })).score = 30 ∧
    checkCookiesOnError.score = 50 := by
  refine ⟨?_, ?_, ?_, ?_, rfl⟩
  · exact (C10_cookie_count_tiers []).1 rfl
  · exact (C10_cookie_count_tiers _).2.1 (by decide) (by decide)
  · exact (C10_cookie_count_tiers _).2.2.1 (by decide) (by decide)
  · exact (C10_cookie_count_tiers _).2.2.2.1 (by simp)

theorem checkUrlAux_succeed (url protocol : String) (now : ℤ)
    (attempts : Nat → Attempt) (fuel rc : Nat) (d : PageData)
    (h : attempts rc = Attempt.succeed d) :
    checkUrlAux url protocol now attempts fuel rc =
      { report := successReport url protocol now d rc,
        pagesOpened := 1, pagesClosed := 0, delays := [] } := by
  unfold checkUrlAux
  rw [h]

theorem checkUrlAux_fail_zero (url protocol : String) (now : ℤ)
    (attempts : Nat → Attempt) (rc : Nat) (msg : String) (pg : Bool)
    (h : attempts rc = Attempt.fail msg pg) :
    checkUrlAux url protocol now attempts 0 rc =
      { report := errorReport url msg rc,
        pagesOpened := if pg then 1 else 0, pagesClosed := 0, delays := [] } := by
  unfold checkUrlAux
  rw [h]

theorem checkUrlAux_fail_succ (url protocol : String) (now : ℤ)
    (attempts : Nat → Attempt) (f rc : Nat) (msg : String) (pg : Bool)
    (h : attempts rc = Attempt.fail msg pg) :
    checkUrlAux url protocol now attempts (f + 1) rc =
      { report := (checkUrlAux url protocol now attempts f (rc + 1)).report,
        pagesOpened := (if pg then 1 else 0) +
          (checkUrlAux url protocol now attempts f (rc + 1)).pagesOpened,
        pagesClosed := (checkUrlAux url protocol now attempts f (rc + 1)).pagesClosed,
        delays := 3000 * (rc + 1) ::
          (checkUrlAux url protocol now attempts f (rc + 1)).delays } := by
  conv_lhs => rw [checkUrlAux]
  rw [h]

theorem checkUrlAux_keys (url protocol : String) (now : ℤ)
    (attempts : Nat → Attempt) :
    ∀ (fuel rc : Nat),
      ((checkUrlAux url protocol now attempts fuel rc).report.checks.map Prod.fst =
        ["cookieBanner", "privacyPolicy", "cookiePolicy", "contactInfo", "ssl",
         "cookies", "preConsentViolations"]) ∨
      (checkUrlAux url protocol now attempts fuel rc).report.checks = [] := by
  intro fuel
  induction fuel with
  | zero =>
      intro rc
      cases h : attempts rc with
      | fail msg pg =>
          right
          rw [checkUrlAux_fail_zero url protocol now attempts rc msg pg h]
          rfl
      | succeed d =>
          left
          rw [checkUrlAux_succeed url protocol now attempts 0 rc d h]
          simp [successReport, runChecks]
  | succ f ih =>
      intro rc
      cases h : attempts rc with
      | fail msg pg =>
          rw [checkUrlAux_fail_succ url protocol now attempts f rc msg pg h]
          exact ih (rc + 1)
      | succeed d =>
          left
          rw [checkUrlAux_succeed url protocol now attempts (f + 1) rc d h]
          simp [successReport, runChecks]

theorem checkUrlAux_pagesClosed (url protocol : String) (now : ℤ)
    (attempts : Nat → Attempt) :
    ∀ (fuel rc : Nat),
      (checkUrlAux url protocol now attempts fuel rc).pagesClosed = 0 := by
  intro fuel
  induction fuel with
  | zero =>
      intro rc
      cases h : attempts rc with
      | fail msg pg => rw [checkUrlAux_fail_zero url protocol now attempts rc msg pg h]
      | succeed d => rw [checkUrlAux_succeed url protocol now attempts 0 rc d h]
  | succ f ih =>
      intro rc
      cases h : attempts rc with
      | fail msg pg =>
          rw [checkUrlAux_fail_succ url protocol now attempts f rc msg pg h]
          exact ih (rc + 1)
      | succeed d => rw [checkUrlAux_succeed url protocol now attempts (f + 1) rc d h]

/-- C1: `checkUrl` is total (it is a function, so every input yields a
report), and when every attempt up to the retry ceiling fails it returns
the terminal error report: `score = 0`, an empty checks map, exactly one
ERROR-priority recommendation carrying the last attempt's failure message,
with the error recorded and the `debug.failed` flag set. -/
theorem C1_error_report_on_exhaustion (url protocol : String) (now : ℤ)
    (attempts : Nat → Attempt) (msg : Nat → String) (pg : Nat → Bool)
    (hfail : ∀ i, i ≤ maxRetries → attempts i = Attempt.fail (msg i) (pg i)) :
    (checkUrl url protocol now attempts).report.score = 0 ∧
    (checkUrl url protocol now attempts).report.checks = [] ∧
    (checkUrl url protocol now attempts).report.recommendations =
      [{ priority := "ERROR",
         message := "Chyba pri kontrole: " ++ msg maxRetries }] ∧
    (checkUrl url protocol now attempts).report.error = some (msg maxRetries) ∧
    (checkUrl url protocol now attempts).report.debugFailed = true := by
  have h0 := hfail 0 (by decide)
  have h1 := hfail 1 (by decide)
  have h2 := hfail 2 (by decide)
  rw [checkUrl, show maxRetries = 2 from rfl,
    checkUrlAux_fail_succ url protocol now attempts 1 0 _ _ h0,
    checkUrlAux_fail_succ url protocol now attempts 0 1 _ _ h1,
    checkUrlAux_fail_zero url protocol now attempts 2 _ _ h2]
  simp [errorReport, show maxRetries = 2 from rfl]

/-- Witness for C1: every attempt fails with a navigation timeout. -/
theorem C1_error_report_on_exhaustion_witness :
    (checkUrl "https://example.com" "https:" 0
      (fun _ => Attempt.fail "timeout" true)).report.score = 0 ∧
    (checkUrl "https://example.com" "https:" 0
      (fun _ => Attempt.fail "timeout" true)).report.checks = [] ∧
    (checkUrl "https://example.com" "https:" 0
      (fun _ => Attempt.fail "timeout" true)).report.recommendations =
      [{ priority := "ERROR", message := "Chyba pri kontrole: " ++ "timeout" }] ∧
    (checkUrl "https://example.com" "https:" 0
      (fun _ => Attempt.fail "timeout" true)).report.error = some "timeout" ∧
    (checkUrl "https://example.com" "https:" 0
      (fun _ => Attempt.fail "timeout" true)).report.debugFailed = true :=
  C1_error_report_on_exhaustion "https://example.com" "https:" 0
    (fun _ => Attempt.fail "timeout" true) (fun _ => "timeout") (fun _ => true)
    (fun _ _ => rfl)

/-- C2 counterexample: on a concrete successful audit the checks map also
carries the key `ssl`, which is not one of the six claimed dimensions — so
the map does not have keys for *exactly* the six dimensions. -/
theorem C2_checks_keys_counterexample :
    "ssl" ∈ ((checkUrl "https://example.com" "https:" 0
      (fun _ => Attempt.succeed pd0)).report.checks.map Prod.fst) ∧
    "ssl" ∉ (["cookieBanner", "privacyPolicy", "cookiePolicy", "contactInfo",
      "cookies", "preConsentViolations"] : List String) := by
  have h : (checkUrl "https://example.com" "https:" 0
      (fun _ => Attempt.succeed pd0)).report.checks.map Prod.fst =
      ["cookieBanner", "privacyPolicy", "cookiePolicy", "contactInfo", "ssl",
       "cookies", "preConsentViolations"] := rfl
  rw [h]
  constructor
  · simp
  · simp

/-- C2 amended: every audit report's checks map has, in fixed order,
exactly the seven keys — the six dimensions plus `ssl` — whenever any
attempt succeeded (regardless of individual detector failures, which enter
only the payloads of `PageData`), and is empty when the whole audit
failed (every attempt up to the retry ceiling failed). -/
theorem C2_checks_keys_amended (url protocol : String) (now : ℤ)
    (a b : Nat → Attempt) (d : PageData) (i : Nat)
    (msg : Nat → String) (pg : Nat → Bool) :
    (i ≤ maxRetries → (∀ j, j < i → ∃ m p, a j = Attempt.fail m p) →
      a i = Attempt.succeed d →
      (checkUrl url protocol now a).report.checks.map Prod.fst =
        ["cookieBanner", "privacyPolicy", "cookiePolicy", "contactInfo", "ssl",
         "cookies", "preConsentViolations"]) ∧
    ((∀ j, j ≤ maxRetries → b j = Attempt.fail (msg j) (pg j)) →
      (checkUrl url protocol now b).report.checks = []) := by
  constructor
  · intro hi hprev hsucc
    have hi2 : i ≤ 2 := hi
    rw [checkUrl, show maxRetries = 2 from rfl]
    interval_cases i
    · rw [checkUrlAux_succeed url protocol now a 2 0 d hsucc]
      simp [successReport, runChecks]
    · obtain ⟨m0, p0, h0⟩ := hprev 0 (by omega)
      rw [checkUrlAux_fail_succ url protocol now a 1 0 _ _ h0,
        checkUrlAux_succeed url protocol now a 1 1 d hsucc]
      simp [successReport, runChecks]
    · obtain ⟨m0, p0, h0⟩ := hprev 0 (by omega)
      obtain ⟨m1, p1, h1⟩ := hprev 1 (by omega)
      rw [checkUrlAux_fail_succ url protocol now a 1 0 _ _ h0,
        checkUrlAux_fail_succ url protocol now a 0 1 _ _ h1,
        checkUrlAux_succeed url protocol now a 0 2 d hsucc]
      simp [successReport, runChecks]
  · intro hb
    have h0 := hb 0 (by decide)
    have h1 := hb 1 (by decide)
    have h2 := hb 2 (by decide)
    rw [checkUrl, show maxRetries = 2 from rfl,
      checkUrlAux_fail_succ url protocol now b 1 0 _ _ h0,
      checkUrlAux_fail_succ url protocol now b 0 1 _ _ h1,
      checkUrlAux_fail_zero url protocol now b 2 _ _ h2]
    rfl

/-- Witness for the amended C2: a schedule succeeding on the third attempt
yields the seven keys; an all-fail schedule yields the empty checks map. -/
theorem C2_checks_keys_amended_witness :
    (checkUrl "https://example.com" "https:" 0
      (fun i => if i < 2 then Attempt.fail "nav" true
                else Attempt.succeed pd0)).report.checks.map Prod.fst =
      ["cookieBanner", "privacyPolicy", "cookiePolicy", "contactInfo", "ssl",
       "cookies", "preConsentViolations"] ∧
    (checkUrl "https://example.com" "https:" 0
      (fun _ => Attempt.fail "nav" true)).report.checks = [] := by
  obtain ⟨hs, hf⟩ := C2_checks_keys_amended "https://example.com" "https:" 0
    (fun i => if i < 2 then Attempt.fail "nav" true else Attempt.succeed pd0)
    (fun _ => Attempt.fail "nav" true) pd0 2 (fun _ => "nav") (fun _ => true)
  exact ⟨hs (by decide) (fun j hj => ⟨"nav", true, by simp [hj]⟩) rfl,
    hf (fun _ _ => rfl)⟩

/-- C7: the retry ceiling is fixed at 2 retries (3 total attempts), with a
3000·(retryCount+1) ms backoff awaited before each retry (3000 then 6000 —
strictly increasing, doubling over the two retries the ceiling allows); a
run failing twice and succeeding on the third attempt yields a successful
report with `debug.retryCount = 2`; a run failing on all attempts yields
the error report with `score = 0`. -/
theorem C7_retry_behaviour (url protocol : String) (now : ℤ)
    (a b : Nat → Attempt) (d : PageData) (m0 m1 : String) (p0 p1 : Bool)
    (msg : Nat → String) (pg : Nat → Bool) :
    maxRetries = 2 ∧
    (a 0 = Attempt.fail m0 p0 → a 1 = Attempt.fail m1 p1 →
      a 2 = Attempt.succeed d →
      (checkUrl url protocol now a).report.debugRetryCount = 2 ∧
      (checkUrl url protocol now a).report.debugFailed = false ∧
      (checkUrl url protocol now a).report.error = none ∧
      (checkUrl url protocol now a).delays = [3000 * 1, 3000 * 2]) ∧
    ((∀ i, i ≤ maxRetries → b i = Attempt.fail (msg i) (pg i)) →
      (checkUrl url protocol now b).report.score = 0 ∧
      (checkUrl url protocol now b).report.debugFailed = true ∧
      (checkUrl url protocol now b).delays = [3000 * 1, 3000 * 2]) := by
  refine ⟨rfl, ?_, ?_⟩
  · intro h0 h1 h2
    rw [checkUrl, show maxRetries = 2 from rfl,
      checkUrlAux_fail_succ url protocol now a 1 0 _ _ h0,
      checkUrlAux_fail_succ url protocol now a 0 1 _ _ h1,
      checkUrlAux_succeed url protocol now a 0 2 d h2]
    simp [successReport]
  · intro hb
    have h0 := hb 0 (by decide)
    have h1 := hb 1 (by decide)
    have h2 := hb 2 (by decide)
    rw [checkUrl, show maxRetries = 2 from rfl,
      checkUrlAux_fail_succ url protocol now b 1 0 _ _ h0,
      checkUrlAux_fail_succ url protocol now b 0 1 _ _ h1,
      checkUrlAux_fail_zero url protocol now b 2 _ _ h2]
    simp [errorReport]

/-- Witness for C7: one attempt schedule failing twice then succeeding,
and one failing on all three attempts. -/
theorem C7_retry_behaviour_witness :
    maxRetries = 2 ∧
    ((checkUrl "https://example.com" "https:" 0
        (fun i => if i < 2 then Attempt.fail "nav" true
                  else Attempt.succeed pd0)).report.debugRetryCount = 2 ∧
      (checkUrl "https://example.com" "https:" 0
        (fun i => if i < 2 then Attempt.fail "nav" true
                  else Attempt.succeed pd0)).report.debugFailed = false ∧
      (checkUrl "https://example.com" "https:" 0
        (fun i => if i < 2 then Attempt.fail "nav" true
                  else Attempt.succeed pd0)).report.error = none ∧
      (checkUrl "https://example.com" "https:" 0
        (fun i => if i < 2 then Attempt.fail "nav" true
                  else Attempt.succeed pd0)).delays = [3000 * 1, 3000 * 2]) ∧
    ((checkUrl "https://example.com" "https:" 0
        (fun _ => Attempt.fail "nav" true)).report.score = 0 ∧
      (checkUrl "https://example.com" "https:" 0
        (fun _ => Attempt.fail "nav" true)).report.debugFailed = true ∧
      (checkUrl "https://example.com" "https:" 0
        (fun _ => Attempt.fail "nav" true)).delays = [3000 * 1, 3000 * 2]) := by
  obtain ⟨hm, hs, hf⟩ := C7_retry_behaviour "https://example.com" "https:" 0
    (fun i => if i < 2 then Attempt.fail "nav" true else Attempt.succeed pd0)
    (fun _ => Attempt.fail "nav" true) pd0 "nav" "nav" true true
    (fun _ => "nav") (fun _ => true)
  exact ⟨hm, hs rfl rfl rfl, hf (fun _ _ => rfl)⟩

/-- C9 (code-bug exhibit): `checkUrl` never executes a `page.close()` —
the cleanup blocks are self-cancelling conditionals — so after a
successful audit the page it opened is still open: one page opened, zero
pages closed, and `pagesClosed = 0` holds for every run. -/
theorem C9_page_left_open :
    (checkUrl "https://example.com" "https:" 0
      (fun _ => Attempt.succeed pd0)).pagesOpened = 1 ∧
    (checkUrl "https://example.com" "https:" 0
      (fun _ => Attempt.succeed pd0)).pagesClosed = 0 ∧
    (∀ (url protocol : String) (now : ℤ) (attempts : Nat → Attempt),
      (checkUrl url protocol now attempts).pagesClosed = 0) :=
  ⟨rfl, rfl, fun url protocol now attempts =>
    checkUrlAux_pagesClosed url protocol now attempts maxRetries 0⟩
